import Mathlib

/-!
Verification of the csv-chomp normalization pipeline.

The repository contains two versions of the same Node.js program:
`src/index.js` and `src/unnamed/part_000`.  Both parse a CSV export of
book records, normalize the fields, and decompose each record into a
book row, author rows and junction rows.  The definitions below are a
shallow embedding of that code:

* JS strings are `List Char`; a possibly-`undefined` field is
  `Option (List Char)` (`none` = `undefined`).
* JS numbers produced by `Number.parseInt` are embedded as `Option Int`
  (`none` = `NaN`); numbers produced by `Number.parseFloat` are
  `Option ℚ` and numbers produced by `Number()` coercion are exact
  fixed-point decimals (`Option DecNum`, `none` = `NaN`).  IEEE-754
  rounding is not modelled: no claim inspects a non-integral numeric
  value beyond equality of exactly-representable parse results.
* A thrown `TypeError` (calling `.split`/`.replace` on `undefined`)
  is `Except.error`.
* `Date` values are embedded as the day number of the date relative to
  the Unix epoch (`Option Int`, `none` = Invalid Date), following the
  ECMAScript `MakeDay`/`TimeClip` arithmetic; `toLocaleDateString` is
  modelled for the `en-US` default locale (`M/D/YYYY`, `"Invalid Date"`
  for invalid dates).
-/

set_option autoImplicit false

namespace CsvChomp

/-- A JavaScript string, as a list of characters. -/
abbrev JsStr := List Char

/-- A JS value that is either a string or `undefined` (`none`). -/
abbrev JsVal := Option JsStr

/-- The only exception the embedded code can throw: a `TypeError` from
calling a string method on `undefined`. -/
inductive JsErr where
  | typeError
deriving DecidableEq, Repr

/-! ## String primitives (`String.prototype.replace`, `replaceAll`, `split`) -/

/-- `s.replace(c, "")` for a one-character string pattern `c`: removes the
first occurrence of `c` anywhere in `s` (JavaScript `replace` with a string
pattern replaces only the first occurrence, wherever it is). -/
def removeFirst (c : Char) : JsStr → JsStr
  | [] => []
  | x :: xs => if x = c then xs else x :: removeFirst c xs

/-- `s.replaceAll(c, "")` for a one-character string pattern `c`: removes
every occurrence of `c`. -/
def removeAll (c : Char) (s : JsStr) : JsStr :=
  s.filter (fun x => x ≠ c)

/-- `cleanISBN` from both source files:
`isbn.replace("=", "").replaceAll('"', "")`. -/
def cleanISBN (isbn : JsStr) : JsStr :=
  removeAll '"' (removeFirst '=' isbn)

/-- `s.split(sep)` for a one-character separator: splits `s` at every
occurrence of `sep`, keeping empty tokens; `"".split(sep)` is `[""]`. -/
def jsSplit (sep : Char) : JsStr → List JsStr
  | [] => [[]]
  | c :: rest =>
    let r := jsSplit sep rest
    if c = sep then
      [] :: r
    else
      match r with
      | [] => [[c]]
      | t :: ts => (c :: t) :: ts

/-- `iterAuthors` from both source files: `authors.split("/")`. -/
def iterAuthors (authors : JsStr) : List JsStr :=
  jsSplit '/' authors

/-! ## Numeric coercions (`parseInt`, `parseFloat`, `Number`) -/

/-- The numeric value of a list of decimal digits. -/
def digitsToNat (ds : JsStr) : Nat :=
  ds.foldl (fun n c => n * 10 + (c.toNat - 48)) 0

/-- `Number.parseInt(s)` (radix 10): an optional sign followed by the
longest decimal-digit prefix; no digits yields `NaN` (`none`).
Leading whitespace and `0x` prefixes are not modelled (no claim, and no
field of the dataset, exercises them). -/
def jsParseInt (s : JsStr) : Option Int :=
  match s with
  | '-' :: rest =>
    let ds := rest.takeWhile (fun c => c.isDigit)
    if ds = [] then none else some (-(digitsToNat ds : Int))
  | '+' :: rest =>
    let ds := rest.takeWhile (fun c => c.isDigit)
    if ds = [] then none else some (digitsToNat ds)
  | _ =>
    let ds := s.takeWhile (fun c => c.isDigit)
    if ds = [] then none else some (digitsToNat ds)

/-- The value of an integer digit prefix together with a fractional digit
part: `ip.fp` as an exact rational. -/
def decimalValue (ip fp : JsStr) : ℚ :=
  (digitsToNat ip : ℚ) + (digitsToNat fp : ℚ) / (10 : ℚ) ^ fp.length

/-- Longest prefix of `s` of the form `digits`, `digits.digits` or
`.digits`, returned as the pair (integer digits, fraction digits),
or `none` when there is no digit in that prefix. -/
def decimalPrefix (s : JsStr) : Option (JsStr × JsStr) :=
  let ip := s.takeWhile (fun c => c.isDigit)
  let rest := s.dropWhile (fun c => c.isDigit)
  let fp :=
    match rest with
    | '.' :: t => t.takeWhile (fun c => c.isDigit)
    | _ => []
  if ip = [] ∧ fp = [] then none
  else some (ip, fp)

/-- `Number.parseFloat(s)`: optional sign, then the longest decimal
prefix; no digit at all yields `NaN`.  Exponents are not modelled.
The result is the exact rational value of the literal (IEEE rounding is
not modelled; see the file comment). -/
def jsParseFloat (s : JsStr) : Option ℚ :=
  match s with
  | '-' :: rest => (decimalPrefix rest).map (fun p => -(decimalValue p.1 p.2))
  | '+' :: rest => (decimalPrefix rest).map (fun p => decimalValue p.1 p.2)
  | _ => (decimalPrefix s).map (fun p => decimalValue p.1 p.2)

/-- A finite JS number arising from `ToNumber` of a decimal literal,
represented exactly as the fixed-point value `num / 10 ^ exp` (no IEEE
rounding; the representation is exact for every literal the pipeline
meets, and only ever flows into subtraction by one and truncation). -/
structure DecNum where
  num : Int
  exp : Nat
deriving DecidableEq, Repr

/-- `x - 1` on a JS number in the fixed-point representation. -/
def DecNum.subOne (q : DecNum) : DecNum :=
  { num := q.num - (((10 : Nat) ^ q.exp : Nat) : Int), exp := q.exp }

/-- `ToNumber(s)` for a string argument (as applied by the `Date`
constructor and by subtraction): the whole string must be a decimal
literal; the empty string converts to `0`; anything else is `NaN`.
Whitespace trimming, hex literals, exponents and `Infinity` are not
modelled (not exercised by any claim). -/
def jsToNumber (s : JsStr) : Option DecNum :=
  if s = [] then some { num := 0, exp := 0 }
  else
    let core : JsStr → Option DecNum := fun t =>
      let ip := t.takeWhile (fun c => c.isDigit)
      let rest := t.dropWhile (fun c => c.isDigit)
      match rest with
      | [] => if ip = [] then none else some { num := (digitsToNat ip : Int), exp := 0 }
      | '.' :: fp =>
        if fp.all (fun c => c.isDigit) ∧ (ip ≠ [] ∨ fp ≠ []) then
          some { num := ((digitsToNat ip * 10 ^ fp.length + digitsToNat fp : Nat) : Int),
                 exp := fp.length }
        else none
      | _ => none
    match s with
    | '-' :: rest => (core rest).map (fun q => { num := -q.num, exp := q.exp })
    | '+' :: rest => core rest
    | _ => core s

/-- `ToNumber` applied to a field that may be `undefined`:
`ToNumber(undefined)` is `NaN`. -/
def toNumberOpt (v : JsVal) : Option DecNum :=
  match v with
  | none => none
  | some s => jsToNumber s

/-- `ToIntegerOrInfinity` on a finite number: truncation toward zero
(`Int.tdiv` by the positive denominator). -/
def jsToInteger (q : DecNum) : Int :=
  Int.tdiv q.num (((10 : Nat) ^ q.exp : Nat) : Int)

/-- `Number.parseInt` of a field that may be `undefined`:
`parseInt(undefined)` parses the string `"undefined"`, which is `NaN`. -/
def jsParseIntOpt (v : JsVal) : Option Int :=
  match v with
  | none => none
  | some s => jsParseInt s

/-- `Number.parseFloat` of a field that may be `undefined` (`NaN`). -/
def jsParseFloatOpt (v : JsVal) : Option ℚ :=
  match v with
  | none => none
  | some s => jsParseFloat s

/-! ## Calendar arithmetic (`new Date(y, m, d)` and `toLocaleDateString`)

The ECMAScript `MakeDay` algorithm reduces a `(year, monthIndex, day)`
triple to a day number relative to 1970-01-01 by proleptic-Gregorian
arithmetic.  `daysFromCivil`/`civilFromDays` are the standard integer
algorithms for that correspondence (month argument is 1-based). -/

/-- Day number of the Gregorian calendar date `y-m-d` (month `1..12`)
relative to 1970-01-01. -/
def daysFromCivil (y m d : Int) : Int :=
  let y' := y - (if m ≤ 2 then 1 else 0)
  let era := Int.fdiv y' 400
  let yoe := y' - era * 400
  let mp := if 2 < m then m - 3 else m + 9
  let doy := Int.fdiv (153 * mp + 2) 5 + d - 1
  let doe := yoe * 365 + Int.fdiv yoe 4 - Int.fdiv yoe 100 + doy
  era * 146097 + doe - 719468

/-- Gregorian calendar date `(y, m, d)` (month `1..12`) of a day number
relative to 1970-01-01. -/
def civilFromDays (z : Int) : Int × Int × Int :=
  let z' := z + 719468
  let era := Int.fdiv z' 146097
  let doe := z' - era * 146097
  let yoe := Int.fdiv (doe - Int.fdiv doe 1460 + Int.fdiv doe 36524 - Int.fdiv doe 146096) 365
  let y := yoe + era * 400
  let doy := doe - (365 * yoe + Int.fdiv yoe 4 - Int.fdiv yoe 100)
  let mp := Int.fdiv (5 * doy + 2) 153
  let d := doy - Int.fdiv (153 * mp + 2) 5 + 1
  let m := if mp < 10 then mp + 3 else mp - 9
  (y + (if m ≤ 2 then 1 else 0), m, d)

/-- `new Date(y, m, d)` (arguments already converted to numbers, `none` =
`NaN`): the resulting time value as a day number, `none` for an Invalid
Date.  Includes the constructor's two-digit-year rule (`0 ≤ y ≤ 99` maps
to `1900 + y`), month overflow (`MakeDay`), and the `TimeClip` range
check (`±100 000 000` days). -/
def mkDateValue (y m d : Option DecNum) : Option Int :=
  match y, m, d with
  | some yq, some mq, some dq =>
    let yi := jsToInteger yq
    let mi := jsToInteger mq
    let di := jsToInteger dq
    let yr := if 0 ≤ yi ∧ yi ≤ 99 then 1900 + yi else yi
    let ym := yr + Int.fdiv mi 12
    let mn := Int.fmod mi 12
    let dv := daysFromCivil ym (mn + 1) 1 + (di - 1)
    if dv < -100000000 ∨ 100000000 < dv then none else some dv
  | _, _, _ => none

/-- Decimal digit string of a natural number (fuel-structured so that it
reduces definitionally for concrete inputs). -/
def natToDecCore : Nat → Nat → JsStr → JsStr
  | 0, _, acc => acc
  | fuel + 1, n, acc =>
    let d := Nat.digitChar (n % 10)
    if n < 10 then d :: acc else natToDecCore fuel (n / 10) (d :: acc)

/-- Decimal digit string of a natural number. -/
def natToDec (n : Nat) : JsStr :=
  natToDecCore (n + 1) n []

/-- Decimal digit string of an integer. -/
def intToDec (n : Int) : JsStr :=
  if n < 0 then '-' :: natToDec n.natAbs else natToDec n.natAbs

/-- `date.toLocaleDateString()` in the `en-US` default locale:
`M/D/YYYY` without zero padding, and the string `"Invalid Date"` for an
invalid date.  (The rendering of years outside `1..9999` differs in real
locales; no claim exercises such a year.) -/
def jsToLocaleDateString (dv : Option Int) : JsStr :=
  match dv with
  | none => ("Invalid Date").toList
  | some z =>
    match civilFromDays z with
    | (y, m, d) => intToDec m ++ '/' :: intToDec d ++ '/' :: intToDec y

/-! ## The record parser (`processCSV`, identical in both source files)

`processCSV` consumes the csv-parse record stream; each record is an
array of strings, accessed positionally (`record[i]` is `undefined` for
a record with at most `i` fields).  The `data` callback builds the raw
book object, applying `iterAuthors` to `record[1]` and `cleanISBN` to
`record[3]` and `record[4]` inline — calling those on `undefined`
throws a `TypeError` inside the callback, which aborts the run. -/

/-- The raw book object built by `processCSV`'s `data` callback. -/
structure RawBook where
  title : JsVal
  authors : List JsStr
  avgRating : JsVal
  isbn : JsStr
  isbn13 : JsStr
  language : JsVal
  pages : JsVal
  ratingCount : JsVal
  textReviewCount : JsVal
  published : JsVal
  publisher : JsVal
deriving DecidableEq, Repr

/-- `record[i]`: the field at index `i`, or `undefined`. -/
def fieldAt (record : List JsStr) (i : Nat) : JsVal :=
  record.get? i

/-- One iteration of `processCSV`'s `data` callback: builds the raw book
object for one record.  The object literal evaluates
`iterAuthors(record[1])`, `cleanISBN(record[3])` and
`cleanISBN(record[4])`; each throws a `TypeError` when its field is
`undefined` (all other fields are stored untouched, `undefined`
included). -/
def processRecord (record : List JsStr) : Except JsErr RawBook :=
  match fieldAt record 1 with
  | none => .error .typeError
  | some authorsField =>
    match fieldAt record 3 with
    | none => .error .typeError
    | some isbnField =>
      match fieldAt record 4 with
      | none => .error .typeError
      | some isbn13Field =>
        .ok { title := fieldAt record 0
              authors := iterAuthors authorsField
              avgRating := fieldAt record 2
              isbn := cleanISBN isbnField
              isbn13 := cleanISBN isbn13Field
              language := fieldAt record 5
              pages := fieldAt record 6
              ratingCount := fieldAt record 7
              textReviewCount := fieldAt record 8
              published := fieldAt record 9
              publisher := fieldAt record 10 }

/-- `processCSV` over an already-lexed record stream: builds the list of
raw books in source order; a `TypeError` thrown while handling any
record aborts the whole run (the promise never resolves). -/
def processCSV : List (List JsStr) → Except JsErr (List RawBook)
  | [] => .ok []
  | r :: rs =>
    match processRecord r with
    | .error e => .error e
    | .ok b =>
      match processCSV rs with
      | .error e => .error e
      | .ok bs => .ok (b :: bs)

/-! ## The field normalizer (`formatedBook` from `src/unnamed/part_000`) -/

/-- The normalized book row built by `part_000`'s `formatedBook`. -/
structure FormattedBook where
  title : JsVal
  avgRating : Option ℚ
  isbn : JsStr
  isbn13 : Option Int
  language : JsVal
  pages : Option Int
  ratingCount : Option Int
  textReviewCount : Option Int
  published : JsStr
  publisher : JsVal
deriving DecidableEq, Repr

/-- `formatedBook` from `src/unnamed/part_000`:
`book.published.split("/")` (a `TypeError` when `published` is
`undefined`), then `new Date(date[2], date[1] - 1, date[0])` rendered
with `toLocaleDateString()`, and the numeric coercions of the other
fields. -/
def formatedBook (book : RawBook) : Except JsErr FormattedBook :=
  match book.published with
  | none => .error .typeError
  | some ps =>
    let date := jsSplit '/' ps
    let y := toNumberOpt (date.get? 2)
    let m := (toNumberOpt (date.get? 1)).map DecNum.subOne
    let d := toNumberOpt (date.get? 0)
    let formatDate := mkDateValue y m d
    .ok { title := book.title
          avgRating := jsParseFloatOpt book.avgRating
          isbn := book.isbn
          isbn13 := jsParseInt book.isbn13
          language := book.language
          pages := jsParseIntOpt book.pages
          ratingCount := jsParseIntOpt book.ratingCount
          textReviewCount := jsParseIntOpt book.textReviewCount
          published := jsToLocaleDateString formatDate
          publisher := book.publisher }

/-! ## The relational decomposer (`divyAuthors` from `src/unnamed/part_000`)

`part_000`'s `divyAuthors` declares `let authorId = 0` inside the
function, so the counter restarts for every book.  Its junction rows
are built by `formatedJunction(data[j], bookISBN13)` — the first
argument is the author **name**, which `formatedJunction` stores in the
junction's `author_id` field. -/

/-- An author row from `part_000`: `{author_id: newAuthorID, name: author}`. -/
structure Author where
  author_id : Nat
  name : JsStr
deriving DecidableEq, Repr

/-- A junction row from `part_000`: `{author_id: author, book_id: bookISBN13}`
where the `author` argument it is called with is the author-name token. -/
structure Junction where
  book_id : JsStr
  author_id : JsStr
deriving DecidableEq, Repr

/-- `formatedAuthor(author, newAuthorID)` from `part_000`. -/
def formatedAuthor (author : JsStr) (newAuthorID : Nat) : Author :=
  { author_id := newAuthorID, name := author }

/-- `formatedJunction(author, bookISBN13)` from `part_000`: stores its
first argument in the row's `author_id` field. -/
def formatedJunction (author : JsStr) (bookISBN13 : JsStr) : Junction :=
  { book_id := bookISBN13, author_id := author }

/-- The loop body of `part_000`'s `divyAuthors`, with the `authorId`
counter threaded explicitly (`newAuthorID = authorId++`). -/
def divyAuthorsGo (bookISBN13 : JsStr) : List JsStr → Nat → List Author × List Junction
  | [], _ => ([], [])
  | a :: rest, authorId =>
    let tail := divyAuthorsGo bookISBN13 rest (authorId + 1)
    (formatedAuthor a authorId :: tail.1, formatedJunction a bookISBN13 :: tail.2)

/-- `divyAuthors(data, bookISBN13)` from `part_000`: the counter is a
local variable initialized to `0` on every call. -/
def divyAuthors (data : List JsStr) (bookISBN13 : JsStr) : List Author × List Junction :=
  divyAuthorsGo bookISBN13 data 0

/-- The three output collections of `part_000`'s `separateData`. -/
structure SeparatedOut where
  booksList : List FormattedBook
  authorsList : List Author
  junctionsList : List Junction
deriving DecidableEq, Repr

/-- `separateData` from `src/unnamed/part_000`: for each raw book in
order, pushes `formatedBook(book)` onto `booksList` (a thrown
`TypeError` aborts the run) and spreads the result of
`divyAuthors(book.authors, book.isbn13)` — note: the **raw** book's
fields — onto `authorsList` and `junctionsList`. -/
def separateData : List RawBook → Except JsErr SeparatedOut
  | [] => .ok { booksList := [], authorsList := [], junctionsList := [] }
  | book :: rest =>
    match formatedBook book with
    | .error e => .error e
    | .ok current =>
      match separateData rest with
      | .error e => .error e
      | .ok out =>
        let dv := divyAuthors book.authors book.isbn13
        .ok { booksList := current :: out.booksList
              authorsList := dv.1 ++ out.authorsList
              junctionsList := dv.2 ++ out.junctionsList }

/-! ## The seeding guard (`seedDB` from `src/unnamed/part_000`)

`seedDB(booksList, "books", client)` first drops the first element
(`data = data.slice(1)`), then for each remaining row builds and logs
an `INSERT` statement unless `typeof data[i].isbn13 !== "number"`.
Every value `formatedBook` put in `isbn13` came from
`Number.parseInt`, and in JavaScript `typeof NaN === "number"`, so the
guard compares `"number"` with `"number"` for every row. -/

/-- `typeof x` for a JS number (our `Option Int` embedding of
`parseInt` results, `none` = `NaN`): `typeof NaN` is `"number"`, so the
result is `"number"` for every value of the embedded type. -/
def jsTypeofNum (x : Option Int) : JsStr :=
  ("number").toList

/-- The rows of `booksList` for which `part_000`'s `seedDB` builds an
`INSERT` statement: the slice drops the first row, and a row is skipped
iff `typeof row.isbn13 !== "number"`. -/
def seedDBBooks (data : List FormattedBook) : List FormattedBook :=
  (data.drop 1).filter (fun b => jsTypeofNum b.isbn13 = ("number").toList)

/-! ## The `src/index.js` variants

`index.js`'s `divyAuthors` draws `randomUUID()` for each author token
and stores that same fresh id in both the author row and the junction
row.  The ambient stream of UUIDs a run draws is modelled as a supply
`uuid : Nat → JsStr` together with a call counter threaded through the
run; two distinct runs correspond to two distinct supplies.
`index.js`'s `separateData` computes `formatedBook(book)` (in that file
a pure field-for-field copy) but pushes the **raw** `book` onto
`booksList`, discarding the copy. -/

/-- An author row from `index.js`: `{author_id: newID, name: data[j]}`
with `newID = randomUUID()`. -/
structure AuthorJS where
  author_id : JsStr
  name : JsStr
deriving DecidableEq, Repr

/-- A junction row from `index.js`: `{book_id: bookISBN13, author_id: newID}`. -/
structure JunctionJS where
  book_id : JsStr
  author_id : JsStr
deriving DecidableEq, Repr

/-- The loop of `index.js`'s `divyAuthors`: each iteration draws the
next UUID from the supply and uses it as both the author row's and the
junction row's `author_id`. -/
def divyAuthorsJSGo (uuid : Nat → JsStr) (bookISBN13 : JsStr) :
    List JsStr → Nat → List AuthorJS × List JunctionJS × Nat
  | [], k => ([], [], k)
  | a :: rest, k =>
    let newID := uuid k
    let tail := divyAuthorsJSGo uuid bookISBN13 rest (k + 1)
    ({ author_id := newID, name := a } :: tail.1,
     { book_id := bookISBN13, author_id := newID } :: tail.2.1,
     tail.2.2)

/-- `formatedBook` from `src/index.js`: a pure field-for-field copy of
the raw book without its `authors` list (no coercion, no date
parsing). -/
def formatedBookJS (book : RawBook) : RawBook :=
  { title := book.title
    authors := book.authors
    avgRating := book.avgRating
    isbn := book.isbn
    isbn13 := book.isbn13
    language := book.language
    pages := book.pages
    ratingCount := book.ratingCount
    textReviewCount := book.textReviewCount
    published := book.published
    publisher := book.publisher }

/-- `separateData` from `src/index.js`: pushes the raw `book` onto
`booksList` (the `formatedBook` copy is computed and discarded) and
spreads `divyAuthors(book.authors, book.isbn13)`; the UUID call counter
is threaded across books.  Returns the three lists and the final
counter. -/
def separateDataJS (uuid : Nat → JsStr) :
    List RawBook → Nat → List RawBook × List AuthorJS × List JunctionJS × Nat
  | [], k => ([], [], [], k)
  | book :: rest, k =>
    let current := formatedBookJS book
    let dv := divyAuthorsJSGo uuid book.isbn13 book.authors k
    let tail := separateDataJS uuid rest dv.2.2
    (book :: tail.1, dv.1 ++ tail.2.1, dv.2.1 ++ tail.2.2.1, tail.2.2.2)

/-! ## Helper lemmas: string primitives -/

theorem removeAll_cons (c x : Char) (xs : JsStr) :
    removeAll c (x :: xs) =
      if x = c then removeAll c xs else x :: removeAll c xs := by
  by_cases hx : x = c <;> simp [removeAll, List.filter_cons, hx]

theorem removeFirst_of_not_mem {c : Char} {s : JsStr} (h : c ∉ s) :
    removeFirst c s = s := by
  induction s with
  | nil => rfl
  | cons x xs ih =>
    simp only [List.mem_cons, not_or] at h
    simp [removeFirst, Ne.symm h.1, ih h.2]

theorem removeAll_of_not_mem {c : Char} {s : JsStr} (h : c ∉ s) :
    removeAll c s = s := by
  induction s with
  | nil => rfl
  | cons x xs ih =>
    simp only [List.mem_cons, not_or] at h
    rw [removeAll_cons, if_neg (Ne.symm h.1), ih h.2]

theorem not_mem_removeAll (c : Char) (s : JsStr) : c ∉ removeAll c s := by
  simp [removeAll]

theorem mem_of_mem_removeAll {x c : Char} {s : JsStr} (h : x ∈ removeAll c s) :
    x ∈ s := by
  simpa [removeAll] using (List.mem_filter.mp h).1

theorem not_mem_removeFirst_of_count_le_one {c : Char} {s : JsStr}
    (h : s.count c ≤ 1) : c ∉ removeFirst c s := by
  induction s with
  | nil => simp [removeFirst]
  | cons x xs ih =>
    by_cases hx : x = c
    · subst hx
      simp only [List.count_cons_self] at h
      have : xs.count x = 0 := by omega
      simp [removeFirst, List.count_eq_zero.mp this]
    · have hcx : xs.count c ≤ 1 := by
        simpa [List.count_cons, hx] using h
      simp [removeFirst, hx, ih hcx, Ne.symm hx]

theorem count_removeAll_of_ne {a c : Char} (h : a ≠ c) (s : JsStr) :
    (removeAll c s).count a = s.count a := by
  induction s with
  | nil => rfl
  | cons x xs ih =>
    rw [removeAll_cons]
    by_cases hx : x = c
    · rw [if_pos hx, ih]
      subst hx
      simp [List.count_cons, Ne.symm h]
    · rw [if_neg hx]
      simp [List.count_cons, ih]

theorem removeAll_removeFirst_comm {c c' : Char} (h : c ≠ c') (s : JsStr) :
    removeAll c' (removeFirst c s) = removeFirst c (removeAll c' s) := by
  induction s with
  | nil => rfl
  | cons x xs ih =>
    by_cases hx : x = c
    · subst hx
      simp [removeFirst, removeAll_cons, h]
    · by_cases hx' : x = c'
      · subst hx'
        simp [removeFirst, hx, removeAll_cons, ih]
      · simp [removeFirst, hx, removeAll_cons, hx', ih]

/-! ## Helper lemmas: the part_000 decomposer -/

theorem divyAuthorsGo_fst_ids (isbn : JsStr) (data : List JsStr) (k : Nat) :
    ((divyAuthorsGo isbn data k).1).map Author.author_id = List.range' k data.length := by
  induction data generalizing k with
  | nil => simp [divyAuthorsGo]
  | cons a rest ih =>
    simp [divyAuthorsGo, formatedAuthor, List.range'_succ, ih]

theorem divyAuthorsGo_fst_names (isbn : JsStr) (data : List JsStr) (k : Nat) :
    ((divyAuthorsGo isbn data k).1).map Author.name = data := by
  induction data generalizing k with
  | nil => simp [divyAuthorsGo]
  | cons a rest ih =>
    simp [divyAuthorsGo, formatedAuthor, ih]

theorem divyAuthorsGo_snd (isbn : JsStr) (data : List JsStr) (k : Nat) :
    (divyAuthorsGo isbn data k).2 = data.map (fun a => formatedJunction a isbn) := by
  induction data generalizing k with
  | nil => simp [divyAuthorsGo]
  | cons a rest ih =>
    simp [divyAuthorsGo, ih]

theorem divyAuthorsGo_lengths (isbn : JsStr) (data : List JsStr) (k : Nat) :
    ((divyAuthorsGo isbn data k).1).length = data.length ∧
      ((divyAuthorsGo isbn data k).2).length = data.length := by
  constructor
  · have := congrArg List.length (divyAuthorsGo_fst_ids isbn data k)
    simpa using this
  · have := congrArg List.length (divyAuthorsGo_snd isbn data k)
    simpa using this

theorem divyAuthors_fst_ids (data : List JsStr) (isbn : JsStr) :
    ((divyAuthors data isbn).1).map Author.author_id = List.range data.length := by
  rw [List.range_eq_range']
  exact divyAuthorsGo_fst_ids isbn data 0

/-! ## Helper lemmas: part_000 `separateData` inversion -/

theorem separateData_ok_authors {data : List RawBook} {out : SeparatedOut}
    (h : separateData data = .ok out) :
    out.authorsList = data.flatMap (fun b => (divyAuthors b.authors b.isbn13).1) := by
  induction data generalizing out with
  | nil =>
    simp [separateData] at h
    simp [← h]
  | cons book rest ih =>
    simp only [separateData] at h
    cases hfb : formatedBook book with
    | error e => rw [hfb] at h; cases h
    | ok current =>
      rw [hfb] at h
      cases hrec : separateData rest with
      | error e => rw [hrec] at h; cases h
      | ok out' =>
        rw [hrec] at h
        cases h
        simp [List.flatMap_cons, ih hrec]

theorem separateData_ok_junctions {data : List RawBook} {out : SeparatedOut}
    (h : separateData data = .ok out) :
    out.junctionsList = data.flatMap (fun b => (divyAuthors b.authors b.isbn13).2) := by
  induction data generalizing out with
  | nil =>
    simp [separateData] at h
    simp [← h]
  | cons book rest ih =>
    simp only [separateData] at h
    cases hfb : formatedBook book with
    | error e => rw [hfb] at h; cases h
    | ok current =>
      rw [hfb] at h
      cases hrec : separateData rest with
      | error e => rw [hrec] at h; cases h
      | ok out' =>
        rw [hrec] at h
        cases h
        simp [List.flatMap_cons, ih hrec]

theorem separateData_ok_books_get? {data : List RawBook} {out : SeparatedOut}
    (h : separateData data = .ok out) (i : Nat) :
    (data.get? i).map formatedBook = (out.booksList.get? i).map Except.ok := by
  induction data generalizing out i with
  | nil =>
    simp [separateData] at h
    simp [← h]
  | cons book rest ih =>
    simp only [separateData] at h
    cases hfb : formatedBook book with
    | error e => rw [hfb] at h; cases h
    | ok current =>
      rw [hfb] at h
      cases hrec : separateData rest with
      | error e => rw [hrec] at h; cases h
      | ok out' =>
        rw [hrec] at h
        cases h
        cases i with
        | zero => simp [hfb]
        | succ n => simpa using ih hrec n

theorem separateData_ok_books_length {data : List RawBook} {out : SeparatedOut}
    (h : separateData data = .ok out) :
    out.booksList.length = data.length := by
  induction data generalizing out with
  | nil =>
    simp [separateData] at h
    simp [← h]
  | cons book rest ih =>
    simp only [separateData] at h
    cases hfb : formatedBook book with
    | error e => rw [hfb] at h; cases h
    | ok current =>
      rw [hfb] at h
      cases hrec : separateData rest with
      | error e => rw [hrec] at h; cases h
      | ok out' =>
        rw [hrec] at h
        cases h
        simp [ih hrec]

/-! ## Helper lemmas: the field normalizer and parser -/

theorem mkDateValue_none {y m d : Option DecNum}
    (h : y = none ∨ m = none ∨ d = none) : mkDateValue y m d = none := by
  rcases y with _ | yq <;> rcases m with _ | mq <;> rcases d with _ | dq <;>
    simp [mkDateValue] <;> rcases h with h | h | h <;> simp_all

theorem formatedBook_isOk {b : RawBook} {s : JsStr} (h : b.published = some s) :
    (formatedBook b).isOk = true := by
  simp [formatedBook, h, Except.isOk, Except.toBool]

theorem formatedBook_not_isOk {b : RawBook} (h : b.published = none) :
    (formatedBook b).isOk = false := by
  simp [formatedBook, h, Except.isOk, Except.toBool]

theorem formatedBook_published_eq {b : RawBook} {s : JsStr}
    (h : b.published = some s) :
    (formatedBook b).toOption.map FormattedBook.published =
      some (jsToLocaleDateString (mkDateValue
        (toNumberOpt ((jsSplit '/' s).get? 2))
        ((toNumberOpt ((jsSplit '/' s).get? 1)).map DecNum.subOne)
        (toNumberOpt ((jsSplit '/' s).get? 0)))) := by
  simp [formatedBook, h, Except.toOption]

theorem formatedBook_ok_isbn13 {b : RawBook} {fb : FormattedBook}
    (h : formatedBook b = .ok fb) : fb.isbn13 = jsParseInt b.isbn13 := by
  cases hp : b.published with
  | none => rw [formatedBook, hp] at h; cases h
  | some s =>
    rw [formatedBook, hp] at h
    cases h
    rfl

theorem processRecord_isOk_iff (record : List JsStr) :
    ((processRecord record).isOk = true) ↔ 5 ≤ record.length := by
  unfold processRecord fieldAt
  rcases h1 : record.get? 1 with _ | a1
  · have := List.get?_eq_none.mp h1
    simp only [h1]
    simp [Except.isOk, Except.toBool]
    omega
  · rcases h3 : record.get? 3 with _ | a3
    · have := List.get?_eq_none.mp h3
      simp only [h1, h3]
      simp [Except.isOk, Except.toBool]
      omega
    · rcases h4 : record.get? 4 with _ | a4
      · have := List.get?_eq_none.mp h4
        simp only [h1, h3, h4]
        simp [Except.isOk, Except.toBool]
        omega
      · have h4' : ¬record.length ≤ 4 := by
          intro hle
          rw [List.get?_eq_none.mpr hle] at h4
          cases h4
        simp only [h1, h3, h4]
        simp [Except.isOk, Except.toBool]
        omega

theorem processRecord_ok_published {record : List JsStr} {rb : RawBook}
    (h : processRecord record = .ok rb) : rb.published = record.get? 9 := by
  unfold processRecord fieldAt at h
  rcases h1 : record.get? 1 with _ | a1 <;> rw [h1] at h
  · cases h
  · rcases h3 : record.get? 3 with _ | a3 <;> rw [h3] at h
    · cases h
    · rcases h4 : record.get? 4 with _ | a4 <;> rw [h4] at h
      · cases h
      · cases h
        rfl

/-! ## Helper lemmas: the index.js decomposer -/

theorem divyAuthorsJSGo_map_name (uuid : Nat → JsStr) (isbn : JsStr)
    (data : List JsStr) (k : Nat) :
    ((divyAuthorsJSGo uuid isbn data k).1).map AuthorJS.name = data := by
  induction data generalizing k with
  | nil => simp [divyAuthorsJSGo]
  | cons a rest ih => simp [divyAuthorsJSGo, ih]

theorem divyAuthorsJSGo_map_book_id (uuid : Nat → JsStr) (isbn : JsStr)
    (data : List JsStr) (k : Nat) :
    ((divyAuthorsJSGo uuid isbn data k).2.1).map JunctionJS.book_id =
      data.map (fun _ => isbn) := by
  induction data generalizing k with
  | nil => simp [divyAuthorsJSGo]
  | cons a rest ih => simp [divyAuthorsJSGo, ih]

theorem divyAuthorsJSGo_ctr (uuid : Nat → JsStr) (isbn : JsStr)
    (data : List JsStr) (k : Nat) :
    (divyAuthorsJSGo uuid isbn data k).2.2 = k + data.length := by
  induction data generalizing k with
  | nil => simp [divyAuthorsJSGo]
  | cons a rest ih => simp [divyAuthorsJSGo, ih]; omega

theorem separateDataJS_books (uuid : Nat → JsStr) (data : List RawBook) (k : Nat) :
    (separateDataJS uuid data k).1 = data := by
  induction data generalizing k with
  | nil => simp [separateDataJS]
  | cons book rest ih => simp [separateDataJS, ih]

theorem separateDataJS_names (uuid : Nat → JsStr) (data : List RawBook) (k : Nat) :
    ((separateDataJS uuid data k).2.1).map AuthorJS.name =
      data.flatMap RawBook.authors := by
  induction data generalizing k with
  | nil => simp [separateDataJS]
  | cons book rest ih =>
    simp [separateDataJS, List.flatMap_cons, divyAuthorsJSGo_map_name, ih]

theorem separateDataJS_book_ids (uuid : Nat → JsStr) (data : List RawBook) (k : Nat) :
    ((separateDataJS uuid data k).2.2.1).map JunctionJS.book_id =
      data.flatMap (fun b => b.authors.map (fun _ => b.isbn13)) := by
  induction data generalizing k with
  | nil => simp [separateDataJS]
  | cons book rest ih =>
    simp [separateDataJS, List.flatMap_cons, divyAuthorsJSGo_map_book_id, ih]

/-! ## A generic helper and test fixtures -/

theorem map_flatMap_eq {α β γ : Type} (g : β → γ) (f : α → List β) (l : List α) :
    (l.flatMap f).map g = l.flatMap (fun a => (f a).map g) := by
  induction l with
  | nil => rfl
  | cons a t ih => simp [List.flatMap_cons, ih]

theorem seedDBBooks_eq_drop (fbs : List FormattedBook) :
    seedDBBooks fbs = fbs.drop 1 := by
  unfold seedDBBooks
  generalize fbs.drop 1 = l
  induction l with
  | nil => rfl
  | cons b t ih => simp [List.filter_cons, jsTypeofNum, ih]

/-- Test fixture: a raw book with the given author tokens, isbn13 and
published string, all remaining fields `undefined` / empty. -/
def sampleBook (authors : List JsStr) (isbn13 : JsStr) (published : JsStr) : RawBook :=
  { title := none, authors := authors, avgRating := none, isbn := [],
    isbn13 := isbn13, language := none, pages := none, ratingCount := none,
    textReviewCount := none, published := some published, publisher := none }

/-! ## Claim C1 -/

/-- Two-book fixture for C1: book 1 has two author tokens, book 2 has one. -/
def c1Input : List RawBook :=
  [sampleBook [("A").toList, ("B").toList] (("111").toList) (("4/9/2006").toList),
   sampleBook [("C").toList] (("222").toList) (("1/2/2003").toList)]

/-- Claim C1 (corrected): in `part_000`'s `divyAuthors` the counter is a
local variable, so author ids restart at `0` for every book: across a
successful run the assigned ids are `0..n-1` for each book's `n` tokens
(`[0,1,0]` for the two-book fixture), not one global sequence. -/
theorem c1_author_ids_reset_per_book :
    ∀ (data : List RawBook) (out : SeparatedOut), separateData data = .ok out →
      out.authorsList.map Author.author_id =
        data.flatMap (fun b => List.range b.authors.length) := by
  intro data out h
  rw [separateData_ok_authors h, map_flatMap_eq]
  simp only [divyAuthors_fst_ids]

/-- Witness for C1: on the two-book fixture the run succeeds and the
assigned ids are `0, 1` then `0` again. -/
theorem c1_witness :
    (separateData c1Input).toOption.map (fun o => o.authorsList.map Author.author_id) =
      some ([0, 1, 0] : List Nat) := by
  have hok : (separateData c1Input).isOk = true := by decide
  cases hsep : separateData c1Input with
  | error e => rw [hsep] at hok; simp [Except.isOk, Except.toBool] at hok
  | ok out =>
    have h := c1_author_ids_reset_per_book c1Input out hsep
    simp only [Except.toOption, Option.map_some']
    rw [h]
    decide

/-- Counterexample for C1 as stated: on the two-book fixture the ids are
`0, 1, 0`, not the claimed `0, 1, 2`. -/
theorem c1_counterexample :
    (separateData c1Input).toOption.map (fun o => o.authorsList.map Author.author_id) =
        some ([0, 1, 0] : List Nat)
    ∧ (separateData c1Input).toOption.map (fun o => o.authorsList.map Author.author_id) ≠
        some ([0, 1, 2] : List Nat) := by
  constructor
  · decide
  · decide

/-! ## Claim C2 -/

/-- Fixture isbn for C2. -/
def c2Isbn : JsStr := ("9780000000000").toList

/-- Claim C2 (code_bug): `part_000` emits exactly one junction per author
row (the lengths agree), but `divyAuthors` passes `data[j]` — the author
**name** — to `formatedJunction`, which stores it in the junction's
`author_id` field; the author rows carry the integer ids `0, 1`, so no
junction carries an emitted author id. -/
theorem c2_junction_author_id_mismatch :
    (∀ (data : List JsStr) (isbn : JsStr),
        ((divyAuthors data isbn).1).length = ((divyAuthors data isbn).2).length)
    ∧ ((divyAuthors [("A").toList, ("B").toList] c2Isbn).1).map Author.author_id = [0, 1]
    ∧ ((divyAuthors [("A").toList, ("B").toList] c2Isbn).2).map Junction.author_id =
        [("A").toList, ("B").toList] := by
  refine ⟨fun data isbn => ?_, by decide, by decide⟩
  have h := divyAuthorsGo_lengths isbn data 0
  exact h.1.trans h.2.symm

/-! ## Claim C3 -/

/-- Fixture for C3: a normal first record followed by a record whose
`isbn13` field is the empty string (which `Number.parseInt` turns into
`NaN`). -/
def c3Input : List RawBook :=
  [sampleBook [("X").toList] (("9780439023481").toList) (("4/9/2006").toList),
   sampleBook [("Y").toList] [] (("1/1/2000").toList)]

/-- Claim C3 (code_bug): `seedDB`'s guard skips a row only when
`typeof row.isbn13 !== "number"`, but every `isbn13` that `formatedBook`
produced is a `parseInt` result and `typeof NaN === "number"`, so the
guard excludes nothing: `seedDBBooks` is exactly `drop 1`, and on the
fixture the `NaN`-isbn13 book IS in the seeded list (`[none]`) while its
author and junction rows are also emitted. -/
theorem c3_nan_isbn13_not_excluded :
    (∀ fbs : List FormattedBook, seedDBBooks fbs = fbs.drop 1)
    ∧ (separateData c3Input).toOption.map
        (fun o => (seedDBBooks o.booksList).map FormattedBook.isbn13) = some [none]
    ∧ (separateData c3Input).toOption.map (fun o => o.authorsList.map Author.name) =
        some [("X").toList, ("Y").toList]
    ∧ (separateData c3Input).toOption.map (fun o => o.junctionsList.map Junction.book_id) =
        some [("9780439023481").toList, []] := by
  refine ⟨seedDBBooks_eq_drop, by decide, by decide, by decide⟩

/-! ## Claim C4 -/

/-- The spec's own example input for `cleanISBN`. -/
def c4Sample : JsStr := ("=\"0439023483\"").toList

/-- Claim C4 (corrected): `cleanISBN` removes only the **first** `=`, so
it is idempotent exactly on strings with at most one `=`; this theorem
proves idempotence under that hypothesis (the counterexample `"=="`
shows the unrestricted claim is false). -/
theorem c4_cleanISBN_idempotent_amended :
    ∀ s : JsStr, s.count '=' ≤ 1 → cleanISBN (cleanISBN s) = cleanISBN s := by
  intro s h
  have h1 : '=' ∉ removeFirst '=' s := not_mem_removeFirst_of_count_le_one h
  have h2 : '=' ∉ cleanISBN s := fun hm => h1 (mem_of_mem_removeAll hm)
  have h3 : '"' ∉ cleanISBN s := not_mem_removeAll _ _
  have hstep : cleanISBN (cleanISBN s) = removeAll '"' (removeFirst '=' (cleanISBN s)) := rfl
  rw [hstep, removeFirst_of_not_mem h2, removeAll_of_not_mem h3]

/-- Witness for C4: the spec's example `'="0439023483"'` has one `=`, and
cleaning it twice equals cleaning it once. -/
theorem c4_witness : cleanISBN (cleanISBN c4Sample) = cleanISBN c4Sample :=
  c4_cleanISBN_idempotent_amended c4Sample (by decide)

/-- Counterexample for C4 as stated: `cleanISBN "==" = "="` but cleaning
again gives `""`, so `cleanISBN` is not idempotent on every string. -/
theorem c4_counterexample :
    cleanISBN (cleanISBN (("==").toList)) ≠ cleanISBN (("==").toList) := by
  decide

/-! ## Claim C5 -/

/-- A UUID supply for one run. -/
def c5Uuid1 : Nat → JsStr := fun _ => ('u') :: []

/-- A distinct UUID supply for a second run. -/
def c5Uuid2 : Nat → JsStr := fun _ => ('v') :: []

/-- One-book fixture for C5. -/
def c5Book : RawBook :=
  sampleBook [("A").toList] (("111").toList) (("4/9/2006").toList)

/-- Claim C5 (corrected): in `index.js` everything except the generated
`author_id` fields is deterministic — the books list, the author names in
order, and the junctions' book-side keys are independent of the UUID
supply a run draws from. (The counterexample shows the full outputs do
differ between supplies, because the drawn UUIDs land in the author and
junction rows.) -/
theorem c5_deterministic_except_ids :
    ∀ (u1 u2 : Nat → JsStr) (data : List RawBook),
      (separateDataJS u1 data 0).1 = (separateDataJS u2 data 0).1
      ∧ ((separateDataJS u1 data 0).2.1).map AuthorJS.name =
          ((separateDataJS u2 data 0).2.1).map AuthorJS.name
      ∧ ((separateDataJS u1 data 0).2.2.1).map JunctionJS.book_id =
          ((separateDataJS u2 data 0).2.2.1).map JunctionJS.book_id := by
  intro u1 u2 data
  refine ⟨?_, ?_, ?_⟩
  · rw [separateDataJS_books, separateDataJS_books]
  · rw [separateDataJS_names, separateDataJS_names]
  · rw [separateDataJS_book_ids, separateDataJS_book_ids]

/-- Counterexample for C5 as stated: two runs whose `randomUUID` draws
differ produce different author/junction collections for the same
input. -/
theorem c5_counterexample :
    separateDataJS c5Uuid1 [c5Book] 0 ≠ separateDataJS c5Uuid2 [c5Book] 0 := by
  decide

/-! ## Claim C6 -/

/-- One-book fixture for C6 (a non-numeric isbn13 string, to make the
string-vs-integer asymmetry visible). -/
def c6Input : List RawBook :=
  [sampleBook [("A").toList, ("B").toList] (("123x").toList) (("4/9/2006").toList)]

/-- Claim C6 (confirmed): in `part_000`'s `separateData`, every junction's
`book_id` is the raw record's `isbn13` string verbatim
(`divyAuthors(book.authors, book.isbn13)` receives the raw book), while
the book row's own `isbn13` is the `Number.parseInt` coercion of that
string. -/
theorem c6_junction_key_verbatim :
    ∀ (data : List RawBook) (out : SeparatedOut), separateData data = .ok out →
      out.junctionsList =
        data.flatMap (fun b => b.authors.map (fun a => formatedJunction a b.isbn13))
      ∧ ∀ i, (out.booksList.get? i).map FormattedBook.isbn13 =
          (data.get? i).map (fun b => jsParseInt b.isbn13) := by
  intro data out h
  constructor
  · rw [separateData_ok_junctions h]
    simp only [divyAuthors, divyAuthorsGo_snd]
  · intro i
    have hb := separateData_ok_books_get? h i
    cases hdi : data.get? i with
    | none =>
      rw [hdi] at hb
      simp only [Option.map_none'] at hb
      have hnone : out.booksList.get? i = none := by
        cases hbo : out.booksList.get? i with
        | none => rfl
        | some fb => rw [hbo] at hb; simp at hb
      rw [hnone]
      rfl
    | some b =>
      rw [hdi] at hb
      cases hbo : out.booksList.get? i with
      | none => rw [hbo] at hb; simp at hb
      | some fb =>
        rw [hbo] at hb
        simp only [Option.map_some'] at hb
        have hfb : formatedBook b = .ok fb := Option.some.inj hb
        simp [hbo, hdi, formatedBook_ok_isbn13 hfb]

/-- Witness for C6: on the fixture the junction rows are exactly the
verbatim-keyed rows predicted by the theorem. -/
theorem c6_witness :
    (separateData c6Input).toOption.map SeparatedOut.junctionsList =
      some (c6Input.flatMap (fun b => b.authors.map (fun a => formatedJunction a b.isbn13))) := by
  have hok : (separateData c6Input).isOk = true := by decide
  cases hsep : separateData c6Input with
  | error e => rw [hsep] at hok; simp [Except.isOk, Except.toBool] at hok
  | ok out =>
    have h := (c6_junction_key_verbatim c6Input out hsep).1
    simp [Except.toOption, h]

/-! ## Claim C7 -/

/-- The behaviour claim C7 ascribes to `cleanISBN`: strip one **leading**
`=` (only), then remove all double quotes. -/
def cleanISBNLeadingSpec (s : JsStr) : JsStr :=
  removeAll '"'
    (match s with
     | '=' :: t => t
     | _ => s)

/-- Claim C7 (corrected): `cleanISBN` removes the first `=` **wherever it
occurs** (JS `replace` with a string pattern is not anchored) and all
double quotes — equivalently, in either order of the two operations —
and maps the spec's example to `0439023483` and the empty string to
itself. -/
theorem c7_cleanISBN_spec :
    (∀ s : JsStr, cleanISBN s = removeFirst '=' (removeAll '"' s))
    ∧ cleanISBN (("=\"0439023483\"").toList) = ("0439023483").toList
    ∧ cleanISBN [] = [] := by
  refine ⟨fun s => removeAll_removeFirst_comm (by decide) s, by decide, rfl⟩

/-- Counterexample for C7 as stated: on `"a="` the described behaviour
(strip a leading `=` only) returns `"a="`, but the code returns `"a"`. -/
theorem c7_counterexample :
    cleanISBNLeadingSpec (("a=").toList) = ("a=").toList
    ∧ cleanISBN (("a=").toList) = ("a").toList
    ∧ cleanISBN (("a=").toList) ≠ cleanISBNLeadingSpec (("a=").toList) := by
  refine ⟨by decide, by decide, by decide⟩

/-! ## Claim C8 -/

/-- Fixture: the spec's well-formed date. -/
def c8GoodBook : RawBook :=
  sampleBook [("A").toList] (("1").toList) (("4/9/2006").toList)

/-- Fixture: an out-of-range day (`40` September). -/
def c8RollBook : RawBook :=
  sampleBook [("A").toList] (("1").toList) (("40/9/2006").toList)

/-- Fixture: only two date components. -/
def c8TwoPartBook : RawBook :=
  sampleBook [("A").toList] (("1").toList) (("4/9").toList)

/-- Fixture: non-numeric date components. -/
def c8BadBook : RawBook :=
  sampleBook [("A").toList] (("1").toList) (("a/b/c").toList)

/-- Claim C8 (corrected): `formatedBook` never raises on a string
`published` field — there is no `DateFormatError` in the code.  A date
with fewer than 3 components or a (model-)non-numeric component yields
the `"Invalid Date"` sentinel string; `"4/9/2006"` renders as September
4 2006 (`"9/4/2006"` in the en-US locale); an out-of-range day rolls
over (`"40/9/2006"` → `"10/10/2006"`) instead of failing. -/
theorem c8_date_normalization_amended :
    (∀ (b : RawBook) (s : JsStr), b.published = some s → (formatedBook b).isOk = true)
    ∧ (∀ (b : RawBook) (s : JsStr), b.published = some s →
        (toNumberOpt ((jsSplit '/' s).get? 0) = none ∨
          toNumberOpt ((jsSplit '/' s).get? 1) = none ∨
          toNumberOpt ((jsSplit '/' s).get? 2) = none) →
        (formatedBook b).toOption.map FormattedBook.published =
          some (("Invalid Date").toList))
    ∧ (∀ (b : RawBook) (s : JsStr), b.published = some s → (jsSplit '/' s).length < 3 →
        (formatedBook b).toOption.map FormattedBook.published =
          some (("Invalid Date").toList))
    ∧ (formatedBook c8GoodBook).toOption.map FormattedBook.published =
        some (("9/4/2006").toList)
    ∧ (formatedBook c8RollBook).toOption.map FormattedBook.published =
        some (("10/10/2006").toList) := by
  have hnan : ∀ (b : RawBook) (s : JsStr), b.published = some s →
      (toNumberOpt ((jsSplit '/' s).get? 0) = none ∨
        toNumberOpt ((jsSplit '/' s).get? 1) = none ∨
        toNumberOpt ((jsSplit '/' s).get? 2) = none) →
      (formatedBook b).toOption.map FormattedBook.published =
        some (("Invalid Date").toList) := by
    intro b s hp hd
    rw [formatedBook_published_eq hp]
    have hz : mkDateValue
        (toNumberOpt ((jsSplit '/' s).get? 2))
        ((toNumberOpt ((jsSplit '/' s).get? 1)).map DecNum.subOne)
        (toNumberOpt ((jsSplit '/' s).get? 0)) = none := by
      apply mkDateValue_none
      rcases hd with h | h | h
      · exact Or.inr (Or.inr h)
      · exact Or.inr (Or.inl (by rw [h]; rfl))
      · exact Or.inl h
    rw [hz]
    rfl
  refine ⟨fun b s hp => formatedBook_isOk hp, hnan, ?_, by decide, by decide⟩
  intro b s hp hlen
  apply hnan b s hp
  refine Or.inr (Or.inr ?_)
  rw [List.get?_eq_none.mpr (by omega)]
  rfl

/-- Witness for C8: a date whose components are all non-numeric yields
the sentinel. -/
theorem c8_witness :
    (formatedBook c8BadBook).toOption.map FormattedBook.published =
      some (("Invalid Date").toList) :=
  c8_date_normalization_amended.2.1 c8BadBook (("a/b/c").toList) rfl (Or.inl (by decide))

/-- Counterexample for C8 as stated: a two-component date does not fail
with any error — `formatedBook` succeeds and emits the sentinel
string. -/
theorem c8_counterexample :
    (formatedBook c8TwoPartBook).isOk = true
    ∧ (formatedBook c8TwoPartBook).toOption.map FormattedBook.published =
        some (("Invalid Date").toList) := by
  refine ⟨by decide, by decide⟩

/-! ## Claim C9 -/

/-- A seven-field record (indices 0–6): authors and both ISBN fields are
present, but `published` (index 9) is missing. -/
def c9Rec : List JsStr :=
  [("t").toList, ("A").toList, ("4").toList, ("i").toList, ("123").toList,
   ("en").toList, ("100").toList]

/-- Claim C9 (corrected): per-record parsing succeeds iff the record has
at least 5 fields — with fewer, `processCSV` itself throws a `TypeError`,
because it applies `split`/`replace` inline to fields 1, 3 and 4; for a
record it does pass through, downstream `formatedBook` fails exactly when
the record has fewer than 10 fields (the `published` field, index 9, is
missing). -/
theorem c9_parser_raises_below_five_fields :
    ∀ record : List JsStr,
      (((processRecord record).isOk = true) ↔ 5 ≤ record.length)
      ∧ (∀ rb : RawBook, processRecord record = .ok rb →
          (((formatedBook rb).isOk = true) ↔ 10 ≤ record.length)) := by
  intro record
  refine ⟨processRecord_isOk_iff record, ?_⟩
  intro rb h
  have hp := processRecord_ok_published h
  constructor
  · intro hok
    by_contra hlt
    push_neg at hlt
    have h9 : record.get? 9 = none := List.get?_eq_none.mpr (by omega)
    rw [h9] at hp
    rw [formatedBook_not_isOk hp] at hok
    cases hok
  · intro hge
    obtain ⟨s, hs⟩ : ∃ s, record.get? 9 = some s := by
      cases h9 : record.get? 9 with
      | none => exact absurd (List.get?_eq_none.mp h9) (by omega)
      | some s => exact ⟨s, rfl⟩
    rw [hs] at hp
    exact formatedBook_isOk hp

/-- Witness for C9: the seven-field record passes the parser and its
downstream normalization fails. -/
theorem c9_witness :
    (processRecord c9Rec).isOk = true
    ∧ (processRecord c9Rec).toOption.map (fun rb => (formatedBook rb).isOk) =
        some false := by
  refine ⟨((c9_parser_raises_below_five_fields c9Rec).1).mpr (by decide), ?_⟩
  cases hpr : processRecord c9Rec with
  | error e =>
    have hok : (processRecord c9Rec).isOk = true :=
      ((c9_parser_raises_below_five_fields c9Rec).1).mpr (by decide)
    rw [hpr] at hok
    simp [Except.isOk, Except.toBool] at hok
  | ok rb =>
    have hiff := (c9_parser_raises_below_five_fields c9Rec).2 rb hpr
    have hfalse : (formatedBook rb).isOk = false := by
      cases hok : (formatedBook rb).isOk with
      | false => rfl
      | true => exact absurd (hiff.mp hok) (by decide)
    simp [Except.toOption, hfalse]

/-- Counterexample for C9 as stated: a one-field record makes the parser
stage itself raise a `TypeError` (from `record[1].split` on
`undefined`) instead of passing the record through. -/
theorem c9_counterexample :
    processCSV [[("t").toList]] = .error JsErr.typeError := rfl

/-! ## Claim C10 -/

/-- Two-record fixture for C10. -/
def c10Input : List RawBook :=
  [sampleBook [("A").toList] (("1").toList) (("1/1/2001").toList),
   sampleBook [("B").toList] (("2").toList) (("2/2/2002").toList)]

/-- Claim C10 (confirmed): a successful `separateData` run emits exactly
one book row per input record — `booksList` has the input's length and
its `i`-th entry is the formatted image of the `i`-th input record, so
nothing is dropped and input order is preserved. -/
theorem c10_books_one_per_record :
    ∀ (data : List RawBook) (out : SeparatedOut), separateData data = .ok out →
      out.booksList.length = data.length
      ∧ ∀ i, (data.get? i).map formatedBook = (out.booksList.get? i).map Except.ok := by
  intro data out h
  exact ⟨separateData_ok_books_length h, separateData_ok_books_get? h⟩

/-- Witness for C10: the two-record fixture yields a books list of
length two. -/
theorem c10_witness :
    (separateData c10Input).toOption.map (fun o => o.booksList.length) = some 2 := by
  have hok : (separateData c10Input).isOk = true := by decide
  cases hsep : separateData c10Input with
  | error e => rw [hsep] at hok; simp [Except.isOk, Except.toBool] at hok
  | ok out =>
    have h := (c10_books_one_per_record c10Input out hsep).1
    simp [Except.toOption, h, c10Input]

end CsvChomp
